import Mathlib

/-!
Verification of the pattern-classification and streaming-feed core of the
scanner repository.

Modelling conventions, applied uniformly:

* JavaScript numbers (IEEE-754 doubles) are modelled as exact rationals.
  The one piece of floating-point behaviour that the control flow of the
  source actually depends on is division by zero, which in JavaScript
  produces dignostic values Infinity, -Infinity or NaN instead of raising
  an error.  Divisions whose divisor can be zero are therefore modelled by
  `jsDiv`, which returns a value of the four-constructor type `JsNum`,
  and the comparisons applied to such quotients are modelled by `jsLe`,
  `jsLt` and `jsGt`, which are false on NaN exactly as in JavaScript.
  Divisions that the source guards with an explicit non-zero test are
  modelled by plain rational division.
* String-typed numeric rendering (`toFixed`) is abstracted to exact
  rendering of the rational (`toString`) and of the `JsNum` value; the
  rendered evidence is a pure function of the same numbers either way, and
  no claim inspects the rendered text itself.
* `async` functions of the source are pure (they touch no shared state),
  so they are modelled as plain functions.
-/

/-- JavaScript number resulting from a division that may divide by zero:
either a finite rational or one of the IEEE special values. -/
inductive JsNum where
  | fin (q : ℚ)
  | posInf
  | negInf
  | nan
deriving DecidableEq, Repr

/-- JavaScript division `a / b` on doubles, restricted to finite operands:
finite quotient when `b ≠ 0`, otherwise `Infinity`, `-Infinity` or `NaN`
according to the sign of `a`. -/
def jsDiv (a b : ℚ) : JsNum :=
  if b ≠ 0 then JsNum.fin (a / b)
  else if 0 < a then JsNum.posInf
  else if a < 0 then JsNum.negInf
  else JsNum.nan

/-- JavaScript comparison `x <= c` for a possibly non-finite `x` against a
finite constant: false on NaN. -/
def jsLe (x : JsNum) (c : ℚ) : Bool :=
  match x with
  | JsNum.fin q => decide (q ≤ c)
  | JsNum.posInf => false
  | JsNum.negInf => true
  | JsNum.nan => false

/-- JavaScript comparison `x < c`: false on NaN. -/
def jsLt (x : JsNum) (c : ℚ) : Bool :=
  match x with
  | JsNum.fin q => decide (q < c)
  | JsNum.posInf => false
  | JsNum.negInf => true
  | JsNum.nan => false

/-- JavaScript comparison `x > c`: false on NaN. -/
def jsGt (x : JsNum) (c : ℚ) : Bool :=
  match x with
  | JsNum.fin q => decide (c < q)
  | JsNum.posInf => true
  | JsNum.negInf => false
  | JsNum.nan => false

/-- Multiplication of a possibly non-finite value by a positive finite
constant (used only to render evidence percentages in detail strings). -/
def JsNum.scalePos (x : JsNum) (c : ℚ) : JsNum :=
  match x with
  | JsNum.fin q => JsNum.fin (q * c)
  | JsNum.posInf => JsNum.posInf
  | JsNum.negInf => JsNum.negInf
  | JsNum.nan => JsNum.nan

/-- Rendering of a `JsNum` as JavaScript renders it inside a template
string (decimal rounding of `toFixed` abstracted to exact rendering). -/
def JsNum.render : JsNum → String
  | JsNum.fin q => toString q
  | JsNum.posInf => "Infinity"
  | JsNum.negInf => "-Infinity"
  | JsNum.nan => "NaN"

/-- Confidence grade of a finding (source union type "High" | "Medium" |
"Low"). -/
inductive Confidence where
  | High
  | Medium
  | Low
deriving DecidableEq, Repr

/-- String carried by the `confidence` field of the source records. -/
def Confidence.label : Confidence → String
  | Confidence.High => "High"
  | Confidence.Medium => "Medium"
  | Confidence.Low => "Low"

/-- Source interface `MarketData` (blueprintDetector.ts).  The field
`open` of the source is renamed `openP` because `open` is reserved in
Lean.  `historicalRanges` is the optional array of trailing daily
ranges. -/
structure MarketData where
  symbol : String
  price : ℚ
  change24h : ℚ
  volume : ℚ
  high24h : ℚ
  low24h : ℚ
  openP : ℚ
  close : ℚ
  historicalRanges : Option (List ℚ)
deriving DecidableEq, Repr

/-- Source interface `BlueprintResult` (blueprintDetector.ts). -/
structure BlueprintResult where
  symbol : String
  blueprintType : String
  confidence : Confidence
  price : ℚ
  change24h : ℚ
  volume : ℚ
  details : String
deriving DecidableEq, Repr

/-- Source function `calculateADR` (blueprintDetector.ts lines 164-176):
mean of the historical ranges; with an absent or empty history the
fallback is `currentRange * 0.8` when `currentRange` is truthy (non-zero)
and `1` otherwise. -/
def calculateADR (historicalRanges : Option (List ℚ)) (currentRange : ℚ) : ℚ :=
  match historicalRanges with
  | none => if currentRange = 0 then 1 else currentRange * (4 / 5)
  | some rs =>
    if rs.length = 0 then (if currentRange = 0 then 1 else currentRange * (4 / 5))
    else rs.sum / (rs.length : ℚ)

/-- Source function `getConfidenceLevel` (blueprintDetector.ts lines
249-256). -/
def getConfidenceLevel (changePercent volume : ℚ) : Confidence :=
  if 10 < changePercent ∧ 1000000 < volume then Confidence.High
  else if 5 < changePercent ∧ 500000 < volume then Confidence.Medium
  else Confidence.Low

/-- Source function `detectRejectionDay` (blueprintDetector.ts lines
178-209).  The quotients `range / adr` and `(close - low) / range` are
unguarded in the source and are modelled with `jsDiv`; the tail-to-body
ratio is explicitly guarded by `bodySize > 0` and is a plain rational. -/
def detectRejectionDay (data : MarketData)
    (range upperWick lowerWick bodySize adr : ℚ) : Bool :=
  if jsLe (jsDiv range adr) (5 / 4) then false
  else
    let isBullish : Bool := decide (data.openP < data.close)
    let relevantTail : ℚ := if isBullish then lowerWick else upperWick
    let tailToBodyRatio : ℚ := if 0 < bodySize then relevantTail / bodySize else 0
    if tailToBodyRatio ≤ 5 / 2 then false
    else
      let closePositionInRange : JsNum := jsDiv (data.close - data.low24h) range
      if isBullish && jsLt closePositionInRange (13 / 20) then false
      else if !isBullish && jsGt closePositionInRange (7 / 20) then false
      else decide (2 < |data.change24h|)

/-- Source function `detectFailedNewHigh` (blueprintDetector.ts lines
211-213). -/
def detectFailedNewHigh (data : MarketData) (changePercent : ℚ) : Bool :=
  decide (data.change24h < -3) && decide (data.close < data.openP)
    && decide (5 < changePercent)

/-- Source function `detectFailedNewLow` (blueprintDetector.ts lines
215-217). -/
def detectFailedNewLow (data : MarketData) (changePercent : ℚ) : Bool :=
  decide (3 < data.change24h) && decide (data.openP < data.close)
    && decide (5 < changePercent)

/-- Source function `detectOutsideDay` (blueprintDetector.ts lines
219-225). -/
def detectOutsideDay (data : MarketData) (range changePercent : ℚ) : Bool :=
  decide (8 < changePercent) && jsGt (jsDiv range data.price) (1 / 20)

/-- Source function `detectAbsorptionDay` (blueprintDetector.ts lines
227-236). -/
def detectAbsorptionDay (data : MarketData) (bodySize range volume : ℚ) : Bool :=
  jsGt (jsDiv bodySize range) (7 / 10) && decide (3 < |data.change24h|)
    && decide (1000000 < volume)

/-- Source function `detectStopRunDay` (blueprintDetector.ts lines
238-247). -/
def detectStopRunDay (data : MarketData)
    (upperWick lowerWick range : ℚ) : Bool :=
  jsGt (jsDiv (max upperWick lowerWick) range) (2 / 5)
    && decide (|data.change24h| < 2)

/-- Source function `analyzeSymbol` (blueprintDetector.ts lines 37-161):
computes the shared quantities once and evaluates each pattern
independently, pushing one finding per matched pattern in source order. -/
def analyzeSymbol (data : MarketData) : List BlueprintResult :=
  let range := data.high24h - data.low24h
  let bodySize := |data.close - data.openP|
  let upperWick := data.high24h - max data.openP data.close
  let lowerWick := min data.openP data.close - data.low24h
  let changePercent := |data.change24h|
  let adr := calculateADR data.historicalRanges range
  (if detectRejectionDay data range upperWick lowerWick bodySize adr then
    let confidence := getConfidenceLevel changePercent data.volume
    let mid := (data.high24h + data.low24h) / 2
    let isBullish : Bool := decide (0 < data.change24h)
    let relevantTail := if isBullish then lowerWick else upperWick
    let tailToBodyRatio := if 0 < bodySize then relevantTail / bodySize else 0
    [{ symbol := data.symbol
       blueprintType := if isBullish then "Long Rejection Day" else "Short Rejection Day"
       confidence := confidence
       price := data.price
       change24h := data.change24h
       volume := data.volume
       details := (if isBullish then "Bullish" else "Bearish")
         ++ " rejection - Range: " ++ JsNum.render (JsNum.scalePos (jsDiv range adr) 100)
         ++ "% ADR, Tail/Body: " ++ toString tailToBodyRatio
         ++ "x, MID: " ++ toString mid }]
  else []) ++
  (if detectFailedNewHigh data changePercent then
    [{ symbol := data.symbol
       blueprintType := "Failed New High"
       confidence := getConfidenceLevel changePercent data.volume
       price := data.price
       change24h := data.change24h
       volume := data.volume
       details := "Failed to sustain new highs, showing weakness with "
         ++ toString changePercent ++ "% reversal" }]
  else []) ++
  (if detectFailedNewLow data changePercent then
    [{ symbol := data.symbol
       blueprintType := "Failed New Low"
       confidence := getConfidenceLevel changePercent data.volume
       price := data.price
       change24h := data.change24h
       volume := data.volume
       details := "Failed to sustain new lows, showing strength with "
         ++ toString changePercent ++ "% recovery" }]
  else []) ++
  (if detectOutsideDay data range changePercent then
    [{ symbol := data.symbol
       blueprintType := if 0 < data.change24h then "Bullish Outside Day" else "Bearish Outside Day"
       confidence := getConfidenceLevel changePercent data.volume
       price := data.price
       change24h := data.change24h
       volume := data.volume
       details := "High volatility outside day with "
         ++ toString changePercent ++ "% move" }]
  else []) ++
  (if detectAbsorptionDay data bodySize range data.volume then
    [{ symbol := data.symbol
       blueprintType := if 0 < data.change24h then "Bullish Absorption Day" else "Bearish Absorption Day"
       confidence := getConfidenceLevel changePercent data.volume
       price := data.price
       change24h := data.change24h
       volume := data.volume
       details := "High volume absorption with "
         ++ JsNum.render (JsNum.scalePos (jsDiv bodySize range) 100) ++ "% body ratio" }]
  else []) ++
  (if detectStopRunDay data upperWick lowerWick range then
    [{ symbol := data.symbol
       blueprintType := if lowerWick < upperWick then "Stop Run Day High" else "Stop Run Day Low"
       confidence := getConfidenceLevel changePercent data.volume
       price := data.price
       change24h := data.change24h
       volume := data.volume
       details := "Stop run detected with "
         ++ JsNum.render (JsNum.scalePos (jsDiv (max upperWick lowerWick) range) 100)
         ++ "% wick" }]
  else [])

/-- Source function `detectBlueprints` (blueprintDetector.ts lines 24-35):
a loop accumulating the per-symbol findings in input order.  The source
function is `async` but performs no effect; it is modelled as the pure
accumulation it computes. -/
def detectBlueprints (marketData : List MarketData) : List BlueprintResult :=
  marketData.foldl (fun results data => results ++ analyzeSymbol data) []

/-- Numeric rank of a confidence grade in the order High > Medium > Low;
the same table the subscription hook uses for its confidence sort
(useRealtimeDataWebSocket.ts lines 143-151). -/
def confidenceRank : Confidence → ℕ
  | Confidence.High => 3
  | Confidence.Medium => 2
  | Confidence.Low => 1

/-- A finding is a Rejection Day finding when it carries one of the two
rejection labels produced by `analyzeSymbol`. -/
def isRejectionFinding (r : BlueprintResult) : Prop :=
  r.blueprintType = "Long Rejection Day" ∨ r.blueprintType = "Short Rejection Day"

/-- A finding is a Stop Run Day finding when it carries one of the two
stop-run labels produced by `analyzeSymbol`. -/
def isStopRunFinding (r : BlueprintResult) : Prop :=
  r.blueprintType = "Stop Run Day High" ∨ r.blueprintType = "Stop Run Day Low"

/-- Concrete snapshot with a bullish close (close 99.5 above open 98) but
a negative 24h change (-5): the rejection detection predicate fires on it
as a bullish rejection. -/
def mdC1 : MarketData :=
  { symbol := "BTCUSDT", price := 199 / 2, change24h := -5, volume := 2000000,
    high24h := 100, low24h := 70, openP := 98, close := 199 / 2,
    historicalRanges := some [10] }

/-- Concrete degenerate snapshot with `high24h = low24h` (zero range) but
open and close below the 24h low, as the `MarketData` record type
permits. -/
def mdC3 : MarketData :=
  { symbol := "XUSDT", price := 100, change24h := 1, volume := 0,
    high24h := 100, low24h := 100, openP := 90, close := 90,
    historicalRanges := none }

/-- Concrete consistent snapshot with zero range: all four session prices
coincide. -/
def mdC3ok : MarketData :=
  { symbol := "XUSDT", price := 100, change24h := 5, volume := 1000,
    high24h := 100, low24h := 100, openP := 100, close := 100,
    historicalRanges := none }

/-- Concrete snapshot whose absolute 24h change is exactly 2, the shared
boundary of the Rejection Day and Stop Run Day thresholds. -/
def mdC10 : MarketData :=
  { symbol := "YUSDT", price := 50, change24h := 2, volume := 3000000,
    high24h := 60, low24h := 40, openP := 41, close := 59,
    historicalRanges := some [4] }

/-- Concrete snapshot used to exercise the classifier entry point. -/
def mdC6 : MarketData :=
  { symbol := "ZUSDT", price := 10, change24h := 0, volume := 1,
    high24h := 12, low24h := 9, openP := 10, close := 10,
    historicalRanges := none }

/-- Source interface `MarketDataUpdate` (websocketClient.ts): the
per-instrument snapshot held by the client store.  The numeric-string
fields of the raw ticker are modelled by their parsed numeric values; the
optional `timeframe` and `timestamp` fields are never written by the
ticker path and are omitted.  The source field `open` is renamed `openP`
as in `MarketData`. -/
structure MarketDataUpdate where
  symbol : String
  price : ℚ
  change24h : ℚ
  volume : ℚ
  high24h : ℚ
  low24h : ℚ
  openP : ℚ
  close : ℚ
deriving DecidableEq, Repr

/-- Source interface `CandlestickData` (websocketClient.ts).  The source
field `open` is renamed `openP`. -/
structure CandlestickData where
  symbol : String
  openP : ℚ
  high : ℚ
  low : ℚ
  close : ℚ
  volume : ℚ
  timestamp : ℤ
  timeframe : String
deriving DecidableEq, Repr

/-- Payload `k` of a source `KlineData` event, restricted to the fields
the handler reads: start time `t`, prices `o h l c`, volume `v`, interval
`i` and the closed flag `x`; numeric-string fields are modelled by their
parsed values. -/
structure KlinePayload where
  t : ℤ
  o : ℚ
  h : ℚ
  l : ℚ
  c : ℚ
  v : ℚ
  i : String
  x : Bool
deriving DecidableEq, Repr

/-- Source interface `KlineData` (websocketClient.ts), restricted to the
fields the handler reads: the symbol `s` and the candle payload `k`. -/
structure KlineData where
  s : String
  k : KlinePayload
deriving DecidableEq, Repr

/-- Insertion-ordered map update, the semantics of JavaScript `Map.set`:
an existing key keeps its position and gets the new value, a new key is
appended at the end. -/
def setA {α : Type} (k : String) (v : α) : List (String × α) → List (String × α)
  | [] => [(k, v)]
  | (k1, v1) :: rest => if k1 = k then (k, v) :: rest else (k1, v1) :: setA k v rest

/-- Insertion-ordered map lookup, the semantics of JavaScript
`Map.get`. -/
def lookupA {α : Type} (k : String) : List (String × α) → Option α
  | [] => none
  | (k1, v1) :: rest => if k1 = k then some v1 else lookupA k rest

/-- State of `BinanceWebSocketClient` (websocketClient.ts), restricted to
the fields the verified behaviour reads and writes: the reconnection
counter and flag, the ticker store (`Map` values in insertion order), the
per-symbol per-timeframe candle store, the kline subscriber ids and the
current timeframe. -/
structure ClientState where
  reconnectAttempts : ℕ
  isConnected : Bool
  marketData : List MarketDataUpdate
  candlestickData : List (String × List (String × CandlestickData))
  klineSubscribers : List String
  currentTimeframe : String
deriving DecidableEq, Repr

/-- The candle record built by `handleKlineData` from a kline event: the
parsed payload fields stamped with the store state current timeframe. -/
def candleOf (kd : KlineData) (tf : String) : CandlestickData :=
  { symbol := kd.s, openP := kd.k.o, high := kd.k.h, low := kd.k.l,
    close := kd.k.c, volume := kd.k.v, timestamp := kd.k.t, timeframe := tf }

/-- Source method `handleKlineData` (websocketClient.ts lines 213-245):
ignores events whose closed flag is false; otherwise stores the candle
under (symbol, current timeframe) and notifies every kline subscriber
with the array of current-timeframe candles of all symbols.  The returned
list pairs each subscriber id with the payload its callback receives. -/
def handleKlineData (kd : KlineData) (s : ClientState) :
    ClientState × List (String × List CandlestickData) :=
  if !kd.k.x then (s, [])
  else
    let candle := candleOf kd s.currentTimeframe
    let inner := (lookupA kd.s s.candlestickData).getD []
    let cd2 := setA kd.s (setA s.currentTimeframe candle inner) s.candlestickData
    let candleArray := cd2.filterMap (fun p => lookupA s.currentTimeframe p.2)
    ({ s with candlestickData := cd2 },
     s.klineSubscribers.map (fun id => (id, candleArray)))

/-- Source constant `maxReconnectAttempts` (websocketClient.ts line
85). -/
def maxReconnectAttempts : ℕ := 5

/-- Source constant `reconnectDelay` in milliseconds (websocketClient.ts
line 86). -/
def reconnectDelay : ℕ := 1000

/-- Source method `handleReconnection` (websocketClient.ts lines
306-319): below the maximum the counter is incremented and a reconnect is
scheduled after `reconnectDelay * attemptNumber` milliseconds (the
returned option); at the maximum nothing is scheduled. -/
def handleReconnection (s : ClientState) : ClientState × Option ℕ :=
  if s.reconnectAttempts < maxReconnectAttempts then
    ({ s with reconnectAttempts := s.reconnectAttempts + 1 },
     some (reconnectDelay * (s.reconnectAttempts + 1)))
  else (s, none)

/-- The `onclose` handler of the ticker stream (websocketClient.ts lines
131-136): marks the client disconnected and runs `handleReconnection`. -/
def wsOnClose (s : ClientState) : ClientState × Option ℕ :=
  handleReconnection { s with isConnected := false }

/-- The `onopen` handler of the ticker stream (websocketClient.ts lines
113-118): marks the client connected and resets the attempt counter to
zero. -/
def wsOnOpen (s : ClientState) : ClientState :=
  { s with isConnected := true, reconnectAttempts := 0 }

/-- Source method `getConnectionStatus` (websocketClient.ts lines
382-384). -/
def getConnectionStatus (s : ClientState) : Bool := s.isConnected

/-- State after `n` consecutive connection failures (each failure fires
the `onclose` handler). -/
def afterFailures (s : ClientState) : ℕ → ClientState
  | 0 => s
  | n + 1 => (wsOnClose (afterFailures s n)).1

/-- The reconnection delay scheduled by the failure that follows `n`
earlier consecutive failures, if any is scheduled. -/
def scheduledOnFailure (s : ClientState) (n : ℕ) : Option ℕ :=
  (wsOnClose (afterFailures s n)).2

/-- Comparison underlying the source comparator
`(a, b) => b.volume - a.volume` of `getTopSymbols`: `a` may precede `b`
exactly when the comparator is non-positive, that is when
`b.volume ≤ a.volume`.  JavaScript `Array.sort` is stable (ES2019), so
the method is modelled with a stable merge sort over this comparison. -/
def volLE (a b : MarketDataUpdate) : Bool := decide (b.volume ≤ a.volume)

/-- Source method `getTopSymbols` (websocketClient.ts lines 408-416),
as a function of the store values in insertion order: filter to
USDT-quoted symbols, sort by volume descending (stable), truncate, and
project the symbols. -/
def getTopSymbols (store : List MarketDataUpdate) (limit : ℕ) : List String :=
  (((store.filter (fun d => d.symbol.endsWith ("USDT"))).mergeSort volLE).take
    limit).map (fun d => d.symbol)

/-- Specification-side order for the top-by-volume query, written from
the spec words: greater volume first, and between equal volumes the
smaller insertion index first. -/
def topByVolumeSpecLE (p q : ℕ × MarketDataUpdate) : Bool :=
  decide (q.2.volume < p.2.volume ∨ (p.2.volume = q.2.volume ∧ p.1 ≤ q.1))

/-- Specification-side top-by-volume query, written from the spec words:
rank the tracked instruments by the strict key (volume descending,
insertion index ascending), take the first `limit`, and return their
identifiers. -/
def topByVolumeSpec (store : List MarketDataUpdate) (limit : ℕ) : List String :=
  (((((store.filter (fun d => d.symbol.endsWith ("USDT"))).enum).mergeSort
    topByVolumeSpecLE).map (fun p => p.2)).take limit).map (fun d => d.symbol)

/-- Filter and sort configuration of one subscriber of the hook
(useRealtimeDataWebSocket.ts). -/
structure ThrottleConfig where
  selectedType : String
  selectedConfidence : String
  sortBy : String
deriving DecidableEq, Repr

/-- Source interface `RealtimeData` (useRealtimeDataWebSocket.ts): the
payload delivered to a subscriber.  The ISO timestamp string is modelled
by the numeric delivery time; the optional `error` field is never set on
the success path modelled here. -/
structure RealtimeData where
  success : Bool
  data : List BlueprintResult
  totalFound : ℕ
  totalScanned : ℕ
  timestamp : ℕ
  connectionStatus : Bool
  currentTimeframe : String
deriving DecidableEq, Repr

/-- The hook passes its `MarketDataUpdate` records directly to
`detectBlueprints`; structurally they are `MarketData` records with the
optional `historicalRanges` field absent. -/
def toMarketData (u : MarketDataUpdate) : MarketData :=
  { symbol := u.symbol, price := u.price, change24h := u.change24h,
    volume := u.volume, high24h := u.high24h, low24h := u.low24h,
    openP := u.openP, close := u.close, historicalRanges := none }

/-- JavaScript `haystack.toLowerCase().includes(needle.toLowerCase())`:
case-insensitive substring containment. -/
def strIncludesCI (haystack needle : String) : Bool :=
  decide (List.IsInfix needle.toLower.toList haystack.toLower.toList)

/-- The comparison underlying the sort of the hook
(useRealtimeDataWebSocket.ts lines 131-153), by the configured key:
symbol ascending (localeCompare modelled as code-point order), price,
24h change or volume descending, and otherwise (the `confidence` default
case) confidence rank descending. -/
def sortLE (sortBy : String) (a b : BlueprintResult) : Bool :=
  if sortBy = "symbol" then decide (a.symbol ≤ b.symbol)
  else if sortBy = "price" then decide (b.price ≤ a.price)
  else if sortBy = "change" then decide (b.change24h ≤ a.change24h)
  else if sortBy = "volume" then decide (b.volume ≤ a.volume)
  else decide (confidenceRank b.confidence ≤ confidenceRank a.confidence)

/-- Body of the throttled timeout of `processMarketData`
(useRealtimeDataWebSocket.ts lines 96-179): restrict the captured update
list to the current top-50 symbols, classify, apply the type filter
(case-insensitive substring), the confidence filter (case-insensitive
exact match) and the configured sort, and build the delivered payload.
`now` is the delivery time, stamped into the payload. -/
def timeoutBody (cfg : ThrottleConfig) (client : ClientState)
    (currentTimeframe : String) (marketData : List MarketDataUpdate)
    (now : ℕ) : RealtimeData :=
  let topSymbols := getTopSymbols client.marketData 50
  let filteredMarketData := marketData.filter (fun item => topSymbols.contains item.symbol)
  let allResults := detectBlueprints (filteredMarketData.map toMarketData)
  let typeFiltered := if cfg.selectedType = "all" then allResults
    else allResults.filter (fun r => strIncludesCI r.blueprintType cfg.selectedType)
  let confFiltered := if cfg.selectedConfidence = "all" then typeFiltered
    else typeFiltered.filter
      (fun r => decide (r.confidence.label.toLower = cfg.selectedConfidence.toLower))
  let sorted := confFiltered.mergeSort (sortLE cfg.sortBy)
  { success := true, data := sorted, totalFound := sorted.length,
    totalScanned := filteredMarketData.length, timestamp := now,
    connectionStatus := getConnectionStatus client,
    currentTimeframe := currentTimeframe }

/-- Timer state of one hook instance: the pending throttled timeout (its
fire time and the update list captured when it was scheduled) and the
deliveries made so far. -/
structure ThrottleState where
  pendingTimeout : Option (ℕ × List MarketDataUpdate)
  deliveries : List RealtimeData
deriving DecidableEq, Repr

/-- The event loop firing the pending timeout once its fire time has
arrived (at or before instant `t`): the recomputation runs on the
captured update list and the payload is delivered. -/
def fireDueTimeout (cfg : ThrottleConfig) (client : ClientState)
    (ctf : String) (t : ℕ) (s : ThrottleState) : ThrottleState :=
  match s.pendingTimeout with
  | none => s
  | some (ft, md) =>
    if ft ≤ t then
      { pendingTimeout := none,
        deliveries := s.deliveries ++ [timeoutBody cfg client ctf md ft] }
    else s

/-- Source callback `processMarketData` (useRealtimeDataWebSocket.ts
lines 89-182) at instant `t`: clear any pending timeout and schedule a
new one 1000 ms later, capturing the notified update list. -/
def processMarketData (t : ℕ) (md : List MarketDataUpdate)
    (s : ThrottleState) : ThrottleState :=
  { s with pendingTimeout := some (t + 1000, md) }

/-- Run of a sequence of state-change notifications against one hook
instance: before each notification the event loop fires a due pending
timeout, then the notification is processed. -/
def runEvents (cfg : ThrottleConfig) (client : ClientState) (ctf : String) :
    List (ℕ × List MarketDataUpdate) → ThrottleState → ThrottleState
  | [], s => s
  | (t, md) :: rest, s =>
    runEvents cfg client ctf rest
      (processMarketData t md (fireDueTimeout cfg client ctf t s))

/-- Concrete stored ticker update used by witness states. -/
def updW : MarketDataUpdate :=
  { symbol := "BTCUSDT", price := 10, change24h := 1, volume := 1000,
    high24h := 11, low24h := 9, openP := 10, close := 10 }

/-- Concrete candle already stored for BTCUSDT at timeframe 4h, used by
the C8 witness to exercise the overwrite. -/
def cndW : CandlestickData :=
  { symbol := "BTCUSDT", openP := 1, high := 2, low := 1, close := 2,
    volume := 5, timestamp := 0, timeframe := "4h" }

/-- Concrete client state used by witnesses: connected, one stored
update, one stored candle, one kline subscriber. -/
def clientW : ClientState :=
  { reconnectAttempts := 0, isConnected := true, marketData := [updW],
    candlestickData := [("BTCUSDT", [("4h", cndW)])],
    klineSubscribers := ["sub1"], currentTimeframe := "4h" }

/-- Concrete closed-candle kline event used by the C8 witness, for a
symbol already holding a candle at the current timeframe. -/
def kdC8 : KlineData :=
  { s := "BTCUSDT",
    k := { t := 1000, o := 3, h := 5, l := 2, c := 4, v := 7, i := "4h", x := true } }

/-- Concrete subscriber configuration used by the C9 witness. -/
def cfgC9 : ThrottleConfig :=
  { selectedType := "all", selectedConfidence := "all", sortBy := "volume" }

/-- Concrete second ticker update used by the C9 witness events. -/
def updW2 : MarketDataUpdate :=
  { symbol := "ETHUSDT", price := 20, change24h := 2, volume := 2000,
    high24h := 22, low24h := 19, openP := 20, close := 20 }

/-- Three state-change notifications inside one throttle window, used by
the C9 witness: at 0 ms, 300 ms and 900 ms, with differing update
lists. -/
def eventsC9 : List (ℕ × List MarketDataUpdate) :=
  [(0, []), (300, [updW]), (900, [updW2])]

/-- Helper: the ranked confidence grade is jointly monotone in the change
percentage and the volume. -/
theorem confidenceRank_mono {cp cp' v v' : ℚ} (h1 : cp ≤ cp') (h2 : v ≤ v') :
    confidenceRank (getConfidenceLevel cp v) ≤
      confidenceRank (getConfidenceLevel cp' v') := by
  by_cases hH : 10 < cp ∧ 1000000 < v
  · have hH' : 10 < cp' ∧ 1000000 < v' := ⟨hH.1.trans_le h1, hH.2.trans_le h2⟩
    simp [getConfidenceLevel, hH, hH']
  · by_cases hM : 5 < cp ∧ 500000 < v
    · have hM' : 5 < cp' ∧ 500000 < v' := ⟨hM.1.trans_le h1, hM.2.trans_le h2⟩
      by_cases hH' : 10 < cp' ∧ 1000000 < v'
      · simp [getConfidenceLevel, hH, hM, hH', confidenceRank]
      · simp [getConfidenceLevel, hH, hM, hH', hM', confidenceRank]
    · have hlow : confidenceRank (getConfidenceLevel cp v) = 1 := by
        simp [getConfidenceLevel, hH, hM, confidenceRank]
      rw [hlow]
      cases getConfidenceLevel cp' v' <;> simp [confidenceRank]

/-- C5.  The confidence grade is monotonic: increasing the volume at a
fixed change percentage, or increasing the change percentage at a fixed
volume, never moves the grade of `getConfidenceLevel` downward in the
order High > Medium > Low. -/
theorem C5_confidence_monotone :
    (∀ changePercent v v' : ℚ, v ≤ v' →
      confidenceRank (getConfidenceLevel changePercent v) ≤
        confidenceRank (getConfidenceLevel changePercent v')) ∧
    (∀ volume cp cp' : ℚ, cp ≤ cp' →
      confidenceRank (getConfidenceLevel cp volume) ≤
        confidenceRank (getConfidenceLevel cp' volume)) :=
  ⟨fun _ _ _ h => confidenceRank_mono le_rfl h,
   fun _ _ _ h => confidenceRank_mono h le_rfl⟩

/-- Witness for C5 at concrete inputs: raising the volume from 600000 to
2000000 at change 6 does not lower the grade, and raising the change from
6 to 11 at volume 600000 does not lower it. -/
theorem C5_confidence_monotone_witness :
    confidenceRank (getConfidenceLevel 6 600000) ≤
      confidenceRank (getConfidenceLevel 6 2000000) ∧
    confidenceRank (getConfidenceLevel 6 600000) ≤
      confidenceRank (getConfidenceLevel 11 600000) :=
  ⟨C5_confidence_monotone.1 6 600000 2000000 (by decide),
   C5_confidence_monotone.2 600000 6 11 (by decide)⟩

/-- C6.  The classifier entry point is a pure, deterministic function of
the snapshot list: identical inputs give identical finding lists (same
findings, same order), and the run is exactly the concatenation of the
independent per-symbol classifications, with no other state involved. -/
theorem C6_classifier_pure :
    ∀ md1 md2 : List MarketData, md1 = md2 →
      detectBlueprints md1 = detectBlueprints md2 ∧
      detectBlueprints md1 = md1.flatMap analyzeSymbol := by
  intro md1 md2 h
  subst h
  refine ⟨rfl, ?_⟩
  suffices hgen : ∀ (acc : List BlueprintResult) (l : List MarketData),
      l.foldl (fun results data => results ++ analyzeSymbol data) acc =
        acc ++ l.flatMap analyzeSymbol by
    simpa [detectBlueprints] using hgen [] md1
  intro acc l
  induction l generalizing acc with
  | nil => simp
  | cons x xs ih => simp [ih]

/-- Witness for C6: two runs on the same concrete one-snapshot list agree
and equal the concatenated per-symbol result. -/
theorem C6_classifier_pure_witness :
    detectBlueprints [mdC6] = detectBlueprints [mdC6] ∧
    detectBlueprints [mdC6] = [mdC6].flatMap analyzeSymbol :=
  C6_classifier_pure [mdC6] [mdC6] rfl

/-- C2 counterexample.  An all-zero non-empty history is not treated as
"no data": `calculateADR` returns the arithmetic mean 0, not the fallback
`currentRange * 0.8 = 8`, at history `[0, 0, 0]` and current range 10. -/
theorem C2_allzero_history_counterexample :
    calculateADR (some [0, 0, 0]) 10 = 0 ∧ (10 : ℚ) * (4 / 5) ≠ 0 := by
  constructor
  · norm_num [calculateADR]
  · norm_num

/-- C2 amended.  With an absent or empty history, `calculateADR` returns
`currentRange * 0.8` when the current range is non-zero and 1 when it is
zero (JavaScript falsy-zero fallback); with a non-empty history it always
returns the arithmetic mean `sum / length` whose divisor is non-zero (so
no division by zero ever occurs), and in particular an all-zero history
yields 0, not the fallback. -/
theorem C2_adr_fallback_amended :
    (∀ currentRange : ℚ, currentRange ≠ 0 →
      calculateADR none currentRange = currentRange * (4 / 5) ∧
      calculateADR (some []) currentRange = currentRange * (4 / 5)) ∧
    (calculateADR none 0 = 1 ∧ calculateADR (some []) 0 = 1) ∧
    (∀ (rs : List ℚ) (currentRange : ℚ), rs ≠ [] →
      calculateADR (some rs) currentRange = rs.sum / (rs.length : ℚ) ∧
      (rs.length : ℚ) ≠ 0) ∧
    (∀ (rs : List ℚ) (currentRange : ℚ), rs ≠ [] → (∀ x ∈ rs, x = 0) →
      calculateADR (some rs) currentRange = 0) := by
  refine ⟨?_, ⟨?_, ?_⟩, ?_, ?_⟩
  · intro cr hcr
    exact ⟨by simp [calculateADR, hcr], by simp [calculateADR, hcr]⟩
  · simp [calculateADR]
  · simp [calculateADR]
  · intro rs cr hrs
    have hlen : rs.length ≠ 0 := by
      simpa [List.length_eq_zero] using hrs
    constructor
    · simp [calculateADR, hlen]
    · exact_mod_cast hlen
  · intro rs cr hrs hz
    have hlen : rs.length ≠ 0 := by
      simpa [List.length_eq_zero] using hrs
    have hsum : rs.sum = 0 := List.sum_eq_zero hz
    simp [calculateADR, hlen, hsum]

/-- Witness for C2 amended at concrete inputs: empty history with current
range 10 gives 8, and the all-zero history `[0]` gives 0. -/
theorem C2_adr_fallback_amended_witness :
    calculateADR none 10 = 10 * (4 / 5) ∧ calculateADR (some [0]) 10 = 0 :=
  ⟨(C2_adr_fallback_amended.1 10 (by decide)).1,
   C2_adr_fallback_amended.2.2.2 [0] 10 (by decide) (by decide)⟩

/-- C1 (code bug).  At the concrete snapshot `mdC1` the close (99.5) is
above the open (98), so the detection predicate fires as a bullish
rejection, yet the produced finding is labelled "Short Rejection Day"
because the labelling code re-derives direction from the sign of
`change24h` (-5) instead of close versus open as the detection predicate
(and the specification) do. -/
theorem C1_rejection_label_divergence :
    (analyzeSymbol mdC1).map (fun r => r.blueprintType) = ["Short Rejection Day"] ∧
    mdC1.openP < mdC1.close := by
  constructor
  · norm_num [analyzeSymbol, mdC1, detectRejectionDay, detectFailedNewHigh,
      detectFailedNewLow, detectOutsideDay, detectAbsorptionDay, detectStopRunDay,
      calculateADR, getConfidenceLevel, jsDiv, jsLe, jsLt, jsGt,
      abs_of_pos, abs_of_neg, abs_of_nonneg]
  · norm_num [mdC1]

/-- C3 counterexample.  The snapshot `mdC3` has zero range
(`high24h = low24h = 100`) but open and close at 90; the unguarded
JavaScript division `wick / 0` yields Infinity and the classifier emits a
Stop Run Day finding, so the claim is false for arbitrary records of the
`MarketData` type. -/
theorem C3_zero_range_counterexample :
    mdC3.high24h - mdC3.low24h = 0 ∧
    (analyzeSymbol mdC3).map (fun r => r.blueprintType) = ["Stop Run Day High"] := by
  constructor
  · norm_num [mdC3]
  · norm_num [analyzeSymbol, mdC3, detectRejectionDay, detectFailedNewHigh,
      detectFailedNewLow, detectOutsideDay, detectAbsorptionDay, detectStopRunDay,
      calculateADR, getConfidenceLevel, jsDiv, jsLe, jsLt, jsGt,
      abs_of_pos, abs_of_neg, abs_of_nonneg]

/-- Helper: dividing a zero numerator the JavaScript way gives a finite 0
for a non-zero divisor and NaN for a zero divisor. -/
theorem jsDiv_zero_num (b : ℚ) :
    jsDiv 0 b = if b ≠ 0 then JsNum.fin 0 else JsNum.nan := by
  simp [jsDiv]

/-- C3 amended.  For every snapshot with zero range whose open and close
lie inside the 24h `[low, high]` band (as every genuine market snapshot
does), the classifier returns the empty finding list: every ratio-based
rule that divides by the range is skipped and no division error is
propagated. -/
theorem C3_zero_range_amended :
    ∀ data : MarketData, data.high24h - data.low24h = 0 →
      data.low24h ≤ data.openP → data.openP ≤ data.high24h →
      data.low24h ≤ data.close → data.close ≤ data.high24h →
      analyzeSymbol data = [] := by
  intro d h0 h1 h2 h3 h4
  have hhl : d.high24h = d.low24h := by linarith
  have ho : d.openP = d.low24h := le_antisymm (hhl ▸ h2) h1
  have hc : d.close = d.low24h := le_antisymm (hhl ▸ h4) h3
  have hrej : ∀ adr : ℚ, detectRejectionDay d 0 0 0 0 adr = false := by
    intro adr
    by_cases hadr : adr = 0
    · simp [detectRejectionDay, hadr, jsDiv, jsLe]
      norm_num
    · simp [detectRejectionDay, hadr, jsDiv, jsLe]
      norm_num
  have hout : ∀ cp : ℚ, detectOutsideDay d 0 cp = false := by
    intro cp
    by_cases hp : d.price = 0
    · simp [detectOutsideDay, jsDiv_zero_num, hp, jsGt]
    · simp [detectOutsideDay, jsDiv_zero_num, hp, jsGt]
  have habs : detectAbsorptionDay d 0 0 d.volume = false := by
    simp [detectAbsorptionDay, jsDiv, jsGt]
  have hstop : detectStopRunDay d 0 0 0 = false := by
    simp [detectStopRunDay, jsDiv, jsGt]
  simp only [analyzeSymbol, hhl, ho, hc, sub_self, max_self, min_self, abs_zero]
  simp [hrej, hout, habs, hstop, detectFailedNewHigh, detectFailedNewLow, ho, hc]

/-- Witness for C3 amended at the concrete consistent zero-range snapshot
`mdC3ok`: all session prices coincide and the classifier returns no
finding. -/
theorem C3_zero_range_amended_witness :
    mdC3ok.high24h - mdC3ok.low24h = 0 ∧ analyzeSymbol mdC3ok = [] :=
  ⟨by simp [mdC3ok],
   C3_zero_range_amended mdC3ok (by simp [mdC3ok]) (by simp [mdC3ok])
     (by simp [mdC3ok]) (by simp [mdC3ok]) (by simp [mdC3ok])⟩

/-- Helper: a positive Rejection Day detection implies the absolute 24h
change exceeds 2 (the final gate of the predicate). -/
theorem detectRejectionDay_imp_change {d : MarketData} {range uw lw b adr : ℚ}
    (h : detectRejectionDay d range uw lw b adr = true) : 2 < |d.change24h| := by
  simp only [detectRejectionDay] at h
  repeat' split at h
  all_goals simp_all

/-- Helper: a positive Stop Run Day detection implies the absolute 24h
change is below 2. -/
theorem detectStopRunDay_imp_change {d : MarketData} {uw lw range : ℚ}
    (h : detectStopRunDay d uw lw range = true) : |d.change24h| < 2 := by
  simp only [detectStopRunDay, Bool.and_eq_true, decide_eq_true_eq] at h
  exact h.2

/-- Helper: every finding produced by `analyzeSymbol` carries one of the
ten catalogue labels, and a rejection or stop-run label occurs only when
the corresponding detection predicate fired on the shared derived
quantities. -/
theorem mem_analyzeSymbol_types {d : MarketData} {r : BlueprintResult}
    (h : r ∈ analyzeSymbol d) :
    (detectRejectionDay d (d.high24h - d.low24h) (d.high24h - max d.openP d.close)
        (min d.openP d.close - d.low24h) |d.close - d.openP|
        (calculateADR d.historicalRanges (d.high24h - d.low24h)) = true ∧
      (r.blueprintType = "Long Rejection Day" ∨ r.blueprintType = "Short Rejection Day")) ∨
    r.blueprintType = "Failed New High" ∨ r.blueprintType = "Failed New Low" ∨
    r.blueprintType = "Bullish Outside Day" ∨ r.blueprintType = "Bearish Outside Day" ∨
    r.blueprintType = "Bullish Absorption Day" ∨ r.blueprintType = "Bearish Absorption Day" ∨
    (detectStopRunDay d (d.high24h - max d.openP d.close)
        (min d.openP d.close - d.low24h) (d.high24h - d.low24h) = true ∧
      (r.blueprintType = "Stop Run Day High" ∨ r.blueprintType = "Stop Run Day Low")) := by
  simp only [analyzeSymbol, List.mem_append] at h
  rcases h with ((((h | h) | h) | h) | h) | h
  · split at h
    · rename_i hcond
      simp only [List.mem_singleton] at h
      subst h
      refine Or.inl ⟨hcond, ?_⟩
      split <;> simp
    · simp at h
  · split at h
    · simp only [List.mem_singleton] at h
      subst h
      simp
    · simp at h
  · split at h
    · simp only [List.mem_singleton] at h
      subst h
      simp
    · simp at h
  · split at h
    · simp only [List.mem_singleton] at h
      subst h
      refine Or.inr (Or.inr (Or.inr ?_))
      split <;> simp
    · simp at h
  · split at h
    · simp only [List.mem_singleton] at h
      subst h
      refine Or.inr (Or.inr (Or.inr (Or.inr (Or.inr ?_))))
      split <;> simp
    · simp at h
  · split at h
    · rename_i hcond
      simp only [List.mem_singleton] at h
      subst h
      refine Or.inr (Or.inr (Or.inr (Or.inr (Or.inr (Or.inr (Or.inr ⟨hcond, ?_⟩))))))
      split <;> simp
    · simp at h

/-- C10.  One classification pass never produces both a Rejection Day
finding and a Stop Run Day finding for the same snapshot, because the
former requires the absolute 24h change to exceed 2 while the latter
requires it to be below 2; at an absolute change of exactly 2 neither
pattern fires. -/
theorem C10_rejection_stoprun_exclusive :
    ∀ d : MarketData,
      (¬ ((∃ r ∈ analyzeSymbol d, isRejectionFinding r) ∧
          (∃ s ∈ analyzeSymbol d, isStopRunFinding s))) ∧
      (|d.change24h| = 2 →
        ∀ r ∈ analyzeSymbol d, ¬ isRejectionFinding r ∧ ¬ isStopRunFinding r) := by
  intro d
  have key : ∀ r ∈ analyzeSymbol d,
      (isRejectionFinding r → 2 < |d.change24h|) ∧
      (isStopRunFinding r → |d.change24h| < 2) := by
    intro r hr
    have h1 := mem_analyzeSymbol_types hr
    constructor
    · intro hrt
      rcases h1 with ⟨hdet, _⟩ | h | h | h | h | h | h | ⟨_, h⟩
      · exact detectRejectionDay_imp_change hdet
      all_goals (rcases hrt with ht | ht <;> simp_all [isRejectionFinding])
    · intro hst
      rcases h1 with ⟨_, h⟩ | h | h | h | h | h | h | ⟨hdet, _⟩
      all_goals (first
        | exact detectStopRunDay_imp_change (by assumption)
        | (rcases hst with ht | ht <;> simp_all [isStopRunFinding]))
  constructor
  · rintro ⟨⟨r, hr, hrt⟩, ⟨s, hs, hst⟩⟩
    have hx := (key r hr).1 hrt
    have hy := (key s hs).2 hst
    linarith
  · intro h2 r hr
    constructor
    · intro hrt
      have := (key r hr).1 hrt
      linarith [this]
    · intro hst
      have := (key r hr).2 hst
      linarith [this]

/-- Witness for C10 at the concrete boundary snapshot `mdC10`, whose
absolute 24h change is exactly 2: no rejection and no stop-run finding is
produced for it. -/
theorem C10_rejection_stoprun_exclusive_witness :
    |mdC10.change24h| = 2 ∧
    (∀ r ∈ analyzeSymbol mdC10, ¬ isRejectionFinding r ∧ ¬ isStopRunFinding r) :=
  ⟨by decide, (C10_rejection_stoprun_exclusive mdC10).2 (by decide)⟩

/-- Helper: one close event increments the attempt counter only below the
maximum. -/
theorem wsOnClose_attempts (s : ClientState) :
    (wsOnClose s).1.reconnectAttempts =
      if s.reconnectAttempts < maxReconnectAttempts then s.reconnectAttempts + 1
      else s.reconnectAttempts := by
  simp only [wsOnClose, handleReconnection]
  split <;> simp_all

/-- Helper: after a close event the client is disconnected. -/
theorem wsOnClose_connected (s : ClientState) :
    (wsOnClose s).1.isConnected = false := by
  simp only [wsOnClose, handleReconnection]
  split <;> simp_all

/-- Helper: the delay a close event schedules, if any: linear backoff
below the maximum, nothing at the maximum. -/
theorem wsOnClose_scheduled (s : ClientState) :
    (wsOnClose s).2 =
      if s.reconnectAttempts < maxReconnectAttempts then
        some (reconnectDelay * (s.reconnectAttempts + 1))
      else none := by
  simp only [wsOnClose, handleReconnection]
  split <;> simp_all

/-- Helper: starting from a zero counter, `n` consecutive failures leave
the counter at `min n maxReconnectAttempts`. -/
theorem afterFailures_attempts {s : ClientState} (h : s.reconnectAttempts = 0) :
    ∀ n : ℕ, (afterFailures s n).reconnectAttempts = min n maxReconnectAttempts := by
  intro n
  induction n with
  | zero => simp [afterFailures, h]
  | succ n ih =>
    show (wsOnClose (afterFailures s n)).1.reconnectAttempts = _
    rw [wsOnClose_attempts, ih]
    split <;> omega

/-- Helper: after at least one failure the client stays disconnected. -/
theorem afterFailures_disconnected {s : ClientState} :
    ∀ n : ℕ, 1 ≤ n → (afterFailures s n).isConnected = false := by
  intro n hn
  cases n with
  | zero => omega
  | succ m => exact wsOnClose_connected (afterFailures s m)

/-- C4.  Starting from a freshly connected client (counter zero): each of
the first `maxReconnectAttempts` (5) consecutive failures schedules one
reconnection attempt with delay `reconnectDelay * attemptNumber` (linear
backoff); once those 5 attempts have been consumed, every further failure
schedules nothing; after any failure the observable connection status is
false, so after exhaustion the feed-unavailable condition
(`getConnectionStatus = false`) is permanent because no reconnect is ever
scheduled again; and a successful open resets the counter to zero. -/
theorem C4_reconnection_exhaustion :
    ∀ s : ClientState, s.reconnectAttempts = 0 →
      (∀ k : ℕ, k < maxReconnectAttempts →
        scheduledOnFailure s k = some (reconnectDelay * (k + 1))) ∧
      (∀ n : ℕ, maxReconnectAttempts ≤ n → scheduledOnFailure s n = none) ∧
      (∀ n : ℕ, 1 ≤ n → getConnectionStatus (afterFailures s n) = false) ∧
      (∀ s2 : ClientState, (wsOnOpen s2).reconnectAttempts = 0 ∧
        getConnectionStatus (wsOnOpen s2) = true) := by
  intro s h0
  refine ⟨?_, ?_, ?_, ?_⟩
  · intro k hk
    have ha := afterFailures_attempts h0 k
    rw [scheduledOnFailure, wsOnClose_scheduled, ha]
    have hmin : min k maxReconnectAttempts = k := by omega
    rw [hmin]
    simp [hk]
  · intro n hn
    have ha := afterFailures_attempts h0 n
    rw [scheduledOnFailure, wsOnClose_scheduled, ha]
    have hmin : min n maxReconnectAttempts = maxReconnectAttempts := by omega
    rw [hmin]
    simp
  · intro n hn
    simpa [getConnectionStatus] using afterFailures_disconnected n hn
  · intro s2
    simp [wsOnOpen, getConnectionStatus]

/-- Witness for C4 at the concrete state `clientW`: the 5th failure
schedules the 5th attempt with delay 5000 ms, the 6th failure schedules
nothing, the status reads false after exhaustion, and an open resets the
counter. -/
theorem C4_reconnection_exhaustion_witness :
    scheduledOnFailure clientW 4 = some (reconnectDelay * (4 + 1)) ∧
    scheduledOnFailure clientW 5 = none ∧
    getConnectionStatus (afterFailures clientW 6) = false ∧
    (wsOnOpen clientW).reconnectAttempts = 0 :=
  ⟨(C4_reconnection_exhaustion clientW rfl).1 4 (by decide),
   (C4_reconnection_exhaustion clientW rfl).2.1 5 (by decide),
   (C4_reconnection_exhaustion clientW rfl).2.2.1 6 (by decide),
   ((C4_reconnection_exhaustion clientW rfl).2.2.2 clientW).1⟩

/-- Helper: the specification order on indexed instruments coincides with
the stability order induced by the implementation comparison. -/
theorem topByVolumeSpecLE_eq_enumLE :
    topByVolumeSpecLE = List.enumLE volLE := by
  funext p q
  simp only [topByVolumeSpecLE, List.enumLE, volLE]
  by_cases h1 : q.2.volume ≤ p.2.volume
  · by_cases h2 : p.2.volume ≤ q.2.volume
    · have heq : p.2.volume = q.2.volume := le_antisymm h2 h1
      simp [h1, h2, heq]
    · have hlt : q.2.volume < p.2.volume := lt_of_le_not_le h1 h2
      simp [h1, h2, hlt]
  · have hlt : p.2.volume < q.2.volume := lt_of_not_le h1
    simp [h1, hlt.not_lt, hlt.ne]

/-- C7.  For every store contents and every limit, `getTopSymbols` (a
stable sort by volume descending followed by truncation) returns exactly
the identifiers ranked by the strict key (volume descending, insertion
index ascending): the greatest-volume instruments first, ties broken by
original insertion order, deterministically. -/
theorem C7_topByVolume_stable : ∀ (store : List MarketDataUpdate) (limit : ℕ),
    getTopSymbols store limit = topByVolumeSpec store limit := by
  intro store limit
  unfold getTopSymbols topByVolumeSpec
  rw [topByVolumeSpecLE_eq_enumLE, List.mergeSort_enum]

/-- Helper: looking up the key just written by the insertion-ordered map
update returns the written value. -/
theorem lookupA_setA_self {α : Type} (k : String) (v : α) (l : List (String × α)) :
    lookupA k (setA k v l) = some v := by
  induction l with
  | nil => simp [setA, lookupA]
  | cons p rest ih =>
    by_cases hp : p.1 = k
    · simp [setA, lookupA, hp]
    · simp [setA, lookupA, hp, ih]

/-- Helper: the insertion-ordered map update leaves every other key
unchanged. -/
theorem lookupA_setA_ne {α : Type} {k k2 : String} (hne : k2 ≠ k) (v : α)
    (l : List (String × α)) : lookupA k2 (setA k v l) = lookupA k2 l := by
  have hne2 : k ≠ k2 := Ne.symm hne
  induction l with
  | nil => simp [setA, lookupA, hne2]
  | cons p rest ih =>
    by_cases hp : p.1 = k
    · simp [setA, lookupA, hp, hne2]
    · simp [setA, lookupA, hp, ih]

/-- C8.  An incoming kline event whose closed flag is false leaves the
candlestick store unchanged and delivers nothing to any kline subscriber;
an event whose closed flag is true stores the new candle under its
(identifier, current timeframe) pair, overwriting the previous value
(the lookup afterwards yields exactly the new candle), leaves every
other identifier and every other timeframe of the same identifier
untouched, and delivers the refreshed current-timeframe candle array to
every subscriber. -/
theorem C8_kline_closed_gate :
    ∀ (kd : KlineData) (s : ClientState),
      (kd.k.x = false → handleKlineData kd s = (s, [])) ∧
      (kd.k.x = true →
        lookupA s.currentTimeframe
            ((lookupA kd.s (handleKlineData kd s).1.candlestickData).getD [])
          = some (candleOf kd s.currentTimeframe) ∧
        (∀ sym, sym ≠ kd.s →
          lookupA sym (handleKlineData kd s).1.candlestickData =
            lookupA sym s.candlestickData) ∧
        (∀ tf, tf ≠ s.currentTimeframe →
          lookupA tf ((lookupA kd.s (handleKlineData kd s).1.candlestickData).getD []) =
            lookupA tf ((lookupA kd.s s.candlestickData).getD [])) ∧
        (handleKlineData kd s).2 =
          s.klineSubscribers.map (fun id =>
            (id, (handleKlineData kd s).1.candlestickData.filterMap
                   (fun p => lookupA s.currentTimeframe p.2)))) := by
  intro kd s
  constructor
  · intro hx
    simp [handleKlineData, hx]
  · intro hx
    refine ⟨?_, ?_, ?_, ?_⟩
    · simp [handleKlineData, hx, lookupA_setA_self]
    · intro sym hsym
      simp [handleKlineData, hx, lookupA_setA_ne hsym]
    · intro tf htf
      simp [handleKlineData, hx, lookupA_setA_self, lookupA_setA_ne htf]
    · simp [handleKlineData, hx]

/-- Witness for C8 at the concrete closed-candle event `kdC8` against the
state `clientW`, which already holds a candle for the same (identifier,
timeframe) pair: after processing, the store holds exactly the new
candle there. -/
theorem C8_kline_closed_gate_witness :
    kdC8.k.x = true ∧
    lookupA clientW.currentTimeframe
        ((lookupA kdC8.s (handleKlineData kdC8 clientW).1.candlestickData).getD [])
      = some (candleOf kdC8 clientW.currentTimeframe) :=
  ⟨rfl, ((C8_kline_closed_gate kdC8 clientW).2 rfl).1⟩

/-- Helper: while every notification of a run falls inside the window
that opened at `t0`, no pending timeout ever becomes due, so the run ends
with no delivery made and with exactly one pending timeout, carrying the
data of the last notification and firing 1000 ms after it. -/
theorem runEvents_within_window (cfg : ThrottleConfig) (client : ClientState)
    (ctf : String) (t0 : ℕ) :
    ∀ (events : List (ℕ × List MarketDataUpdate)) (s : ThrottleState)
      (hne : events ≠ []),
      (∀ e ∈ events, t0 ≤ e.1 ∧ e.1 < t0 + 1000) →
      (s.pendingTimeout = none ∨
        ∃ p, s.pendingTimeout = some p ∧ t0 + 1000 ≤ p.1) →
      runEvents cfg client ctf events s =
        { pendingTimeout := some ((events.getLast hne).1 + 1000, (events.getLast hne).2),
          deliveries := s.deliveries } := by
  intro events
  induction events with
  | nil => intro s hne _ _; exact absurd rfl hne
  | cons e rest ih =>
    intro s hne hw hp
    have hfire : fireDueTimeout cfg client ctf e.1 s = s := by
      rcases hp with h | ⟨p, hps, hpt⟩
      · simp [fireDueTimeout, h]
      · have he := hw e (List.mem_cons_self e rest)
        have : ¬ p.1 ≤ e.1 := by omega
        simp [fireDueTimeout, hps, this]
    cases rest with
    | nil =>
      simp [runEvents, hfire, processMarketData, List.getLast]
    | cons e2 rest2 =>
      have hne2 : e2 :: rest2 ≠ ([] : List (ℕ × List MarketDataUpdate)) := by simp
      have hstep : runEvents cfg client ctf (e :: e2 :: rest2) s =
          runEvents cfg client ctf (e2 :: rest2)
            (processMarketData e.1 e.2 (fireDueTimeout cfg client ctf e.1 s)) := rfl
      rw [hstep, hfire]
      have hw2 : ∀ x ∈ e2 :: rest2, t0 ≤ x.1 ∧ x.1 < t0 + 1000 := by
        intro x hx
        exact hw x (List.mem_cons_of_mem e hx)
      have hp2 : (processMarketData e.1 e.2 s).pendingTimeout = none ∨
          ∃ p, (processMarketData e.1 e.2 s).pendingTimeout = some p ∧ t0 + 1000 ≤ p.1 := by
        right
        have he := hw e (List.mem_cons_self e (e2 :: rest2))
        exact ⟨(e.1 + 1000, e.2), rfl, by omega⟩
      have hrun := ih (processMarketData e.1 e.2 s) hne2 hw2 hp2
      rw [hrun]
      simp [processMarketData, List.getLast]

/-- C9.  Any number N ≥ 1 of state-change notifications arriving within
one throttle window (all inside 1000 ms of the first) produce, once the
window has passed, exactly one recomputation-and-delivery: each
notification supersedes the previously pending timeout, and the single
delivery fires 1000 ms after the last notification using the update list
of that last notification — the latest state at delivery time, not an
intermediate one. -/
theorem C9_throttle_single_delivery :
    ∀ (cfg : ThrottleConfig) (client : ClientState) (ctf : String)
      (events : List (ℕ × List MarketDataUpdate)) (hne : events ≠ []),
      (∀ e ∈ events, (events.head hne).1 ≤ e.1 ∧ e.1 < (events.head hne).1 + 1000) →
      fireDueTimeout cfg client ctf ((events.getLast hne).1 + 1000)
          (runEvents cfg client ctf events { pendingTimeout := none, deliveries := [] }) =
        { pendingTimeout := none,
          deliveries := [timeoutBody cfg client ctf (events.getLast hne).2
            ((events.getLast hne).1 + 1000)] } := by
  intro cfg client ctf events hne hw
  rw [runEvents_within_window cfg client ctf (events.head hne).1 events
    { pendingTimeout := none, deliveries := [] } hne hw (Or.inl rfl)]
  simp [fireDueTimeout]

/-- Witness for C9 at the three concrete notifications of `eventsC9`
(0 ms, 300 ms, 900 ms, all within one window): exactly one delivery,
fired at 1900 ms from the update list of the last notification. -/
theorem C9_throttle_single_delivery_witness :
    fireDueTimeout cfgC9 clientW ("4h") ((eventsC9.getLast (by simp [eventsC9])).1 + 1000)
        (runEvents cfgC9 clientW ("4h") eventsC9
          { pendingTimeout := none, deliveries := [] }) =
      { pendingTimeout := none,
        deliveries := [timeoutBody cfgC9 clientW ("4h")
          (eventsC9.getLast (by simp [eventsC9])).2
          ((eventsC9.getLast (by simp [eventsC9])).1 + 1000)] } :=
  C9_throttle_single_delivery cfgC9 clientW ("4h") eventsC9 (by simp [eventsC9])
    (by decide)
